import Mathlib

/-!
Verification of the Fund Subscription & Balance Transaction Engine
(`backend/funds-service/main.py` together with `backend/shared/models.py`
and `backend/shared/database.py`).

Shallow embedding. Monetary values are `Decimal`/float amounts in the
source; they are modelled here as exact integers (fixed-point minor
units, as the data model prescribes), since every operation the engine
performs on them is an exact comparison, addition or subtraction.
MongoDB collections are modelled as lists of documents;
`find_one` is `List.find?` (first match), `update_one` updates the first
matching document, `delete_one` removes the first matching document, and
`insert_one` appends. The `uuid.uuid4()` transaction id is modelled by a
fresh counter (its only relevant property is freshness). A MongoDB
session is started around the writes (`session.start_transaction()` ...
`commit_transaction()`), but none of the `insert_one`/`update_one`/
`delete_one` calls passes `session=session`, so in PyMongo/Motor none of
them joins the transaction: each write executes and commits
independently, and a failure at one write (a unique-index violation on
insert, or any persistence fault, modelled by `CommitFault`) leaves the
earlier writes of the same operation already committed. The commit phase
is therefore modelled as a sequence of independent writes with an
explicit first-fault point, and an operation's result carries the
resulting state even when the operation fails.
-/

namespace BTG

/-- Monetary amount: `Decimal`/float in the source, an exact integer
count of fixed-point minor units here. -/
abbrev Money := Int

/-- Decidable equality for endpoint results, so that concrete runs of
the engine can be checked by `decide`. -/
instance {ε α : Type} [DecidableEq ε] [DecidableEq α] :
    DecidableEq (Except ε α) := fun x y =>
  match x, y with
  | .ok a, .ok b =>
    if h : a = b then .isTrue (by rw [h]) else .isFalse (by simp [h])
  | .error a, .error b =>
    if h : a = b then .isTrue (by rw [h]) else .isFalse (by simp [h])
  | .ok _, .error _ => .isFalse (by simp)
  | .error _, .ok _ => .isFalse (by simp)

/-- A document of the `funds` collection
(fields used by the funds service). -/
structure Fund where
  fund_id : Nat
  name : String
  minimum_amount : Money
  is_active : Bool
deriving DecidableEq

/-- A document of the `users` collection (fields used by the funds
service). `user_id` stands for the `_id` ObjectId, unique per document. -/
structure UserDoc where
  user_id : String
  balance : Money
deriving DecidableEq

/-- A document of the `user_subscriptions` collection. -/
structure SubscriptionDoc where
  user_id : String
  fund_id : Nat
  amount : Money
  is_active : Bool
deriving DecidableEq

/-- `TransactionType` from `shared/models.py`. -/
inductive TransactionType
  | subscription
  | cancellation
deriving DecidableEq

/-- A document of the `transactions` collection. -/
structure TransactionDoc where
  transaction_id : Nat
  user_id : String
  fund_id : Nat
  transaction_type : TransactionType
  amount : Money
  balance_before : Money
  balance_after : Money
deriving DecidableEq

/-- The database state: the four collections the funds service touches,
plus the fresh-id counter modelling `uuid.uuid4()`. -/
structure DB where
  funds : List Fund
  users : List UserDoc
  user_subscriptions : List SubscriptionDoc
  transactions : List TransactionDoc
  next_transaction_id : Nat
deriving DecidableEq

/-- The distinct error raise sites of `subscribe_to_fund` and
`cancel_subscription`. `fundNotFound` is the 404 raised when the
`find_one({fund_id, is_active: True})` (subscribe) or
`find_one({fund_id})` (cancel) query returns nothing;
`persistenceFailure` is the generic 500 produced by the outer
`except Exception` handler when the session aborts. The source has no
raise site distinguishing an inactive fund from an absent one, and no
concurrency-conflict raise site at all. -/
inductive ApiError
  | fundNotFound
  | belowMinimumInvestment
  | userNotFound
  | insufficientFunds
  | duplicateSubscription
  | subscriptionNotFound
  | persistenceFailure
deriving DecidableEq

/-- `find_one({"fund_id": fid, "is_active": True})` on `funds`. -/
def findFundActive (db : DB) (fid : Nat) : Option Fund :=
  db.funds.find? (fun f => f.fund_id == fid && f.is_active)

/-- `find_one({"fund_id": fid})` on `funds` (the cancel path omits the
`is_active` filter). -/
def findFund (db : DB) (fid : Nat) : Option Fund :=
  db.funds.find? (fun f => f.fund_id == fid)

/-- `find_one({"_id": object_id})` on `users`, as a list lookup. -/
def lookupUser (l : List UserDoc) (uid : String) : Option UserDoc :=
  l.find? (fun u => u.user_id == uid)

/-- `find_one({"_id": object_id})` on the `users` collection of `db`. -/
def findUser (db : DB) (uid : String) : Option UserDoc :=
  lookupUser db.users uid

/-- The filter `{"user_id": uid, "fund_id": fid, "is_active": True}`. -/
def isActiveSubFor (uid : String) (fid : Nat) (s : SubscriptionDoc) : Bool :=
  s.user_id == uid && s.fund_id == fid && s.is_active

/-- The key of the unique index
`create_index([("user_id", 1), ("fund_id", 1)], unique=True)`:
matches every document for the pair, active or not. -/
def isSubFor (uid : String) (fid : Nat) (s : SubscriptionDoc) : Bool :=
  s.user_id == uid && s.fund_id == fid

/-- `find_one({"user_id": uid, "fund_id": fid, "is_active": True})`. -/
def findActiveSubscription (db : DB) (uid : String) (fid : Nat) :
    Option SubscriptionDoc :=
  db.user_subscriptions.find? (isActiveSubFor uid fid)

/-- Number of documents for the (account, fund) pair, active or not.
The unique index keeps this at most 1 in every reachable state. -/
def pairCount (db : DB) (uid : String) (fid : Nat) : Nat :=
  db.user_subscriptions.countP (isSubFor uid fid)

/-- Number of active subscription documents for the (account, fund) pair. -/
def activeCount (db : DB) (uid : String) (fid : Nat) : Nat :=
  db.user_subscriptions.countP (isActiveSubFor uid fid)

/-- `update_one({"_id": object_id}, {"$set": {"balance": b}})`:
overwrites the balance of the first matching user document with the
given value, unconditionally — the filter names only the id, not the
previously read balance. -/
def setBalance : List UserDoc → String → Money → List UserDoc
  | [], _, _ => []
  | u :: us, uid, b =>
    if u.user_id == uid then { u with balance := b } :: us
    else u :: setBalance us uid b

/-- The balance the service reads for an account (0 if the account is
missing, a case every successful operation excludes). -/
def balanceOf (db : DB) (uid : String) : Money :=
  ((findUser db uid).map UserDoc.balance).getD 0

/-- Sum of the amounts of the account's active subscriptions
(`sum(sub["amount"] for sub in subscriptions)` over the
`{"user_id": uid, "is_active": True}` query). -/
def subSum (uid : String) : List SubscriptionDoc → Money
  | [] => 0
  | s :: l => (if s.user_id == uid && s.is_active then s.amount else 0) + subSum uid l

/-- The quantity the spec claims is conserved: cash balance plus the
sum of active invested amounts. -/
def wealth (db : DB) (uid : String) : Money :=
  balanceOf db uid + subSum uid db.user_subscriptions

/-- The data `subscribe_to_fund` gathers during its validation phase,
before the session opens: the request, and the balance read from the
user document. All the values written by the commit phase are computed
from this snapshot. -/
structure SubSnapshot where
  uid : String
  fid : Nat
  amount : Money
  balance_read : Money
deriving DecidableEq

/-- Validation phase of `subscribe_to_fund` (main.py lines 228-287), in
source order: fund lookup with the `is_active: True` filter; minimum
amount; user lookup; balance sufficiency; then the duplicate
active-subscription check. -/
def subscribeValidate (db : DB) (uid : String) (fid : Nat) (amount : Money) :
    Except ApiError SubSnapshot :=
  match findFundActive db fid with
  | none => .error .fundNotFound
  | some fund =>
    if amount < fund.minimum_amount then .error .belowMinimumInvestment
    else
      match findUser db uid with
      | none => .error .userNotFound
      | some user =>
        if user.balance < amount then .error .insufficientFunds
        else if (findActiveSubscription db uid fid).isSome then
          .error .duplicateSubscription
        else .ok ⟨uid, fid, amount, user.balance⟩

/-- The first write of a commit phase at which an injected persistence
fault occurs, if any. Because the writes inside the
`session.start_transaction()` block (main.py lines 305-327 and 427-443)
never pass `session=session`, each of them auto-commits independently,
so a fault at one write leaves every earlier write already applied. -/
inductive CommitFault
  | none
  | atLedger
  | atBalance
  | atRegistry
deriving DecidableEq

/-- The transaction document subscribe builds in memory before the
session opens (main.py lines 289-302), entirely from the validation
snapshot. -/
def subTx (db : DB) (s : SubSnapshot) : TransactionDoc :=
  { transaction_id := db.next_transaction_id
    user_id := s.uid
    fund_id := s.fid
    transaction_type := .subscription
    amount := s.amount
    balance_before := s.balance_read
    balance_after := s.balance_read - s.amount }

/-- Commit phase of `subscribe_to_fund` (main.py lines 304-327). In
source order: insert the transaction document, `$set` the balance to
the precomputed `balance_read - amount`, insert the subscription
document (which the unique index on (user_id, fund_id) can reject).
None of these writes is bound to the session, so each auto-commits on
its own; a fault at a write — or the index rejection — raises out of
the handler with every earlier write kept, and nothing is rolled back.
The result pairs the resulting state with `some tx` on success and
`none` on a failed commit phase. Every written value comes from the
snapshot; the current state of `db` is not re-read. -/
def subscribeCommit (db : DB) (s : SubSnapshot) (fault : CommitFault) :
    DB × Option TransactionDoc :=
  if fault = .atLedger then (db, none)
  else if fault = .atBalance then
    ({ db with
       transactions := db.transactions ++ [subTx db s]
       next_transaction_id := db.next_transaction_id + 1 }, none)
  else if fault = .atRegistry then
    ({ db with
       users := setBalance db.users s.uid (s.balance_read - s.amount)
       transactions := db.transactions ++ [subTx db s]
       next_transaction_id := db.next_transaction_id + 1 }, none)
  else if (db.user_subscriptions.find? (isSubFor s.uid s.fid)).isSome then
    ({ db with
       users := setBalance db.users s.uid (s.balance_read - s.amount)
       transactions := db.transactions ++ [subTx db s]
       next_transaction_id := db.next_transaction_id + 1 }, none)
  else
    ({ db with
       users := setBalance db.users s.uid (s.balance_read - s.amount)
       user_subscriptions :=
         db.user_subscriptions ++ [⟨s.uid, s.fid, s.amount, true⟩]
       transactions := db.transactions ++ [subTx db s]
       next_transaction_id := db.next_transaction_id + 1 }, some (subTx db s))

/-- `POST /funds/subscribe` (main.py lines 219-360): validation phase
followed immediately by the commit phase on the same state. A failed
commit write surfaces as the generic 500 (`persistenceFailure`), with
the partial writes it left behind still visible in the state. -/
def subscribe_to_fund (db : DB) (uid : String) (fid : Nat) (amount : Money)
    (fault : CommitFault) : DB × Except ApiError TransactionDoc :=
  match subscribeValidate db uid fid amount with
  | .error e => (db, .error e)
  | .ok s =>
    match subscribeCommit db s fault with
    | (db₂, none) => (db₂, .error .persistenceFailure)
    | (db₂, some tx) => (db₂, .ok tx)

/-- The cancellation transaction document (main.py lines 411-424),
built before the session from the found subscription and user. -/
def cancelTx (db : DB) (uid : String) (fid : Nat) (sub : SubscriptionDoc)
    (user : UserDoc) : TransactionDoc :=
  { transaction_id := db.next_transaction_id
    user_id := uid
    fund_id := fid
    transaction_type := .cancellation
    amount := sub.amount
    balance_before := user.balance
    balance_after := user.balance + sub.amount }

/-- Commit phase of `cancel_subscription` (main.py lines 426-443), with
the same unbound-session behaviour: the transaction insert, the balance
`$set` to `balance + subscription.amount` and the `delete_one` of the
found subscription document each auto-commit independently, so a fault
at a later write keeps the earlier ones. `List.eraseP` removes exactly
the first match, the same document `List.find?` returned. -/
def cancelCommit (db : DB) (uid : String) (fid : Nat) (sub : SubscriptionDoc)
    (user : UserDoc) (fault : CommitFault) : DB × Option TransactionDoc :=
  if fault = .atLedger then (db, none)
  else if fault = .atBalance then
    ({ db with
       transactions := db.transactions ++ [cancelTx db uid fid sub user]
       next_transaction_id := db.next_transaction_id + 1 }, none)
  else if fault = .atRegistry then
    ({ db with
       users := setBalance db.users uid (user.balance + sub.amount)
       transactions := db.transactions ++ [cancelTx db uid fid sub user]
       next_transaction_id := db.next_transaction_id + 1 }, none)
  else
    ({ db with
       users := setBalance db.users uid (user.balance + sub.amount)
       user_subscriptions :=
         db.user_subscriptions.eraseP (isActiveSubFor uid fid)
       transactions := db.transactions ++ [cancelTx db uid fid sub user]
       next_transaction_id := db.next_transaction_id + 1 },
     some (cancelTx db uid fid sub user))

/-- `POST /funds/cancel` (main.py lines 363-474), in source order: fund
lookup (no `is_active` filter); active-subscription lookup; user
lookup; then the commit phase. -/
def cancel_subscription (db : DB) (uid : String) (fid : Nat)
    (fault : CommitFault) : DB × Except ApiError TransactionDoc :=
  match findFund db fid with
  | none => (db, .error .fundNotFound)
  | some _fund =>
    match findActiveSubscription db uid fid with
    | none => (db, .error .subscriptionNotFound)
    | some sub =>
      match findUser db uid with
      | none => (db, .error .userNotFound)
      | some user =>
        match cancelCommit db uid fid sub user fault with
        | (db₂, none) => (db₂, .error .persistenceFailure)
        | (db₂, some tx) => (db₂, .ok tx)

/-- The database state observable after a subscribe call. A validation
failure leaves the prior state; a failed commit write leaves its
partial writes visible. -/
def subscribeState (db : DB) (uid : String) (fid : Nat) (amount : Money)
    (fault : CommitFault) : DB :=
  (subscribe_to_fund db uid fid amount fault).1

/-- The database state observable after a cancel call. -/
def cancelState (db : DB) (uid : String) (fid : Nat) (fault : CommitFault) : DB :=
  (cancel_subscription db uid fid fault).1

/-- One operation of an account's request sequence, with the write (if
any) at which its commit phase faults. -/
inductive Op
  | sub (fid : Nat) (amount : Money) (fault : CommitFault)
  | cancel (fid : Nat) (fault : CommitFault)

/-- The observable state transition of one operation. -/
def applyOp (uid : String) (db : DB) (op : Op) : DB :=
  match op with
  | .sub fid amount fault => subscribeState db uid fid amount fault
  | .cancel fid fault => cancelState db uid fid fault

/-- A finite sequence of subscribe/cancel operations by one account. -/
def runOps (uid : String) (db : DB) (ops : List Op) : DB :=
  ops.foldl (applyOp uid) db

/-- Whether an endpoint call succeeded. -/
def succeeds (r : DB × Except ApiError TransactionDoc) : Bool :=
  match r.2 with
  | .ok _ => true
  | .error _ => false

/-- The spec scenario's fund: id 1, minimum investment 75000, active. -/
def fundFPV : Fund := ⟨1, "FPV", 75000, true⟩

/-- The spec scenario's initial state: one user with balance 500000. -/
def db0 : DB := ⟨[fundFPV], [⟨"u1", 500000⟩], [], [], 0⟩

/-- The ledger record of the scenario's first subscribe. -/
def tx0 : TransactionDoc := ⟨0, "u1", 1, .subscription, 75000, 500000, 425000⟩

/-- The state after `subscribe(u1, 1, 75000)` on `db0`. -/
def db1 : DB := ⟨[fundFPV], [⟨"u1", 425000⟩], [⟨"u1", 1, 75000, true⟩], [tx0], 1⟩

/-- The ledger record of the scenario's cancel. -/
def tx1c : TransactionDoc := ⟨1, "u1", 1, .cancellation, 75000, 425000, 500000⟩

/-- The state after `cancel(u1, 1)` on `db1`. -/
def db2c : DB := ⟨[fundFPV], [⟨"u1", 500000⟩], [], [tx0, tx1c], 2⟩

/-- The half-applied state the unbound session leaves when the
subscription insert of `subscribe(u1, 1, 75000)` from `db0` fails: the
ledger row and the debit are committed, no subscription exists. -/
def dbPartial : DB := ⟨[fundFPV], [⟨"u1", 425000⟩], [], [tx0], 1⟩

/-- The half-applied state the unbound session leaves when the
`delete_one` of `cancel(u1, 1)` from `db1` fails: the cancel ledger row
and the credit are committed, the subscription is still present. -/
def dbCPartial : DB :=
  ⟨[fundFPV], [⟨"u1", 500000⟩], [⟨"u1", 1, 75000, true⟩], [tx0, tx1c], 2⟩

/-- An active fund with minimum 10, for the interleaving run. -/
def fundA : Fund := ⟨1, "A", 10, true⟩

/-- A second active fund with minimum 10. -/
def fundB : Fund := ⟨2, "B", 10, true⟩

/-- Interleaving run: one user with balance 100, two funds. -/
def dbC5 : DB := ⟨[fundA, fundB], [⟨"u1", 100⟩], [], [], 0⟩

/-- Validation snapshot of `subscribe(u1, 1, 80)` read on `dbC5`. -/
def snapA : SubSnapshot := ⟨"u1", 1, 80, 100⟩

/-- Validation snapshot of `subscribe(u1, 2, 80)` read on `dbC5`. -/
def snapB : SubSnapshot := ⟨"u1", 2, 80, 100⟩

/-- Ledger record written by committing `snapA`. -/
def txA : TransactionDoc := ⟨0, "u1", 1, .subscription, 80, 100, 20⟩

/-- Ledger record written by committing `snapB` after `snapA`. -/
def txB : TransactionDoc := ⟨1, "u1", 2, .subscription, 80, 100, 20⟩

/-- State after committing `snapA` on `dbC5`. -/
def dbC5a : DB :=
  ⟨[fundA, fundB], [⟨"u1", 20⟩], [⟨"u1", 1, 80, true⟩], [txA], 1⟩

/-- State after also committing the stale `snapB` on `dbC5a`. -/
def dbC5b : DB :=
  ⟨[fundA, fundB], [⟨"u1", 20⟩],
   [⟨"u1", 1, 80, true⟩, ⟨"u1", 2, 80, true⟩], [txA, txB], 2⟩

/-- A user with balance 50 already holding an active subscription of 50 to fund 3. -/
def dbC7 : DB := ⟨[⟨3, "C", 10, true⟩], [⟨"u1", 50⟩], [⟨"u1", 3, 50, true⟩], [], 0⟩

/-- A catalog holding fund 4 with `is_active = false`. -/
def dbC9 : DB := ⟨[⟨4, "D", 10, false⟩], [⟨"u1", 500000⟩], [], [], 0⟩

/-- The same state with fund 4 absent from the catalog. -/
def dbC9e : DB := ⟨[], [⟨"u1", 500000⟩], [], [], 0⟩

theorem lookupUser_setBalance (l : List UserDoc) (uid : String) (b : Money) :
    lookupUser (setBalance l uid b) uid =
      (lookupUser l uid).map (fun u => { u with balance := b }) := by
  induction l with
  | nil => rfl
  | cons u us ih =>
    cases h : (u.user_id == uid) with
    | true =>
      have h2 : ({ u with balance := b } : UserDoc).user_id == uid := h
      simp only [setBalance, h, if_true, lookupUser, List.find?_cons, h2, cond_true]
      rfl
    | false =>
      simp only [setBalance, h, if_false, lookupUser, List.find?_cons, cond_false, Bool.false_eq_true]
      exact ih

theorem countP_eraseP_of_find? {α : Type} (p q : α → Bool) (l : List α) (a : α)
    (h : l.find? p = some a) (hpq : ∀ x, p x = true → q x = true) :
    (l.eraseP p).countP q + 1 = l.countP q := by
  induction l with
  | nil => cases h
  | cons b l ih =>
    cases hb : p b with
    | true =>
      rw [List.eraseP_cons, hb]
      simp [List.countP_cons, hpq b hb]
    | false =>
      rw [List.eraseP_cons, hb]
      have h' : l.find? p = some a := by
        rw [List.find?_cons_of_neg _ (by simp [hb])] at h
        exact h
      simp only [cond_false, List.countP_cons]
      have := ih h'
      omega

theorem active_imp_pair (uid : String) (fid : Nat) (s : SubscriptionDoc)
    (h : isActiveSubFor uid fid s = true) : isSubFor uid fid s = true := by
  unfold isActiveSubFor at h
  unfold isSubFor
  simp only [Bool.and_eq_true] at h ⊢
  exact h.1

theorem subscribeValidate_ok (db : DB) (uid : String) (fid : Nat) (amount : Money)
    (s : SubSnapshot) (h : subscribeValidate db uid fid amount = .ok s) :
    s = ⟨uid, fid, amount, balanceOf db uid⟩ ∧
    (∃ fund, findFundActive db fid = some fund ∧ fund.minimum_amount ≤ amount) ∧
    (∃ user, findUser db uid = some user ∧ user.balance = balanceOf db uid ∧
      amount ≤ user.balance) ∧
    findActiveSubscription db uid fid = none := by
  unfold subscribeValidate at h
  split at h
  · exact absurd h (by simp)
  next fund hf =>
    split at h
    · exact absurd h (by simp)
    next hmin =>
      split at h
      · exact absurd h (by simp)
      next user hu =>
        split at h
        · exact absurd h (by simp)
        next hbal =>
          split at h
          · exact absurd h (by simp)
          next hdup =>
            have hb : balanceOf db uid = user.balance := by
              unfold balanceOf
              rw [hu]
              rfl
            have hs := Except.ok.inj h
            refine ⟨by rw [← hs, hb], ⟨fund, hf, not_lt.mp hmin⟩,
              ⟨user, hu, hb.symm, not_lt.mp hbal⟩, ?_⟩
            cases hfa : findActiveSubscription db uid fid with
            | none => rfl
            | some x => rw [hfa] at hdup; exact absurd rfl hdup

theorem subscribeCommit_ok (db : DB) (s : SubSnapshot) (fault : CommitFault)
    (db' : DB) (tx : TransactionDoc)
    (h : subscribeCommit db s fault = (db', some tx)) :
    fault = .none ∧
    db.user_subscriptions.find? (isSubFor s.uid s.fid) = none ∧
    tx = ⟨db.next_transaction_id, s.uid, s.fid, .subscription, s.amount,
          s.balance_read, s.balance_read - s.amount⟩ ∧
    db' = { db with
            users := setBalance db.users s.uid (s.balance_read - s.amount)
            user_subscriptions :=
              db.user_subscriptions ++ [⟨s.uid, s.fid, s.amount, true⟩]
            transactions := db.transactions ++ [tx]
            next_transaction_id := db.next_transaction_id + 1 } := by
  unfold subscribeCommit at h
  split at h
  · exact absurd (congrArg Prod.snd h) (by simp)
  next h1 =>
    split at h
    · exact absurd (congrArg Prod.snd h) (by simp)
    next h2 =>
      split at h
      · exact absurd (congrArg Prod.snd h) (by simp)
      next h3 =>
        split at h
        · exact absurd (congrArg Prod.snd h) (by simp)
        next hidx =>
          have hpair : db.user_subscriptions.find? (isSubFor s.uid s.fid) = none := by
            cases hfa : db.user_subscriptions.find? (isSubFor s.uid s.fid) with
            | none => rfl
            | some x => rw [hfa] at hidx; exact absurd rfl hidx
          have hfn : fault = CommitFault.none := by
            cases fault with
            | none => rfl
            | atLedger => exact absurd rfl h1
            | atBalance => exact absurd rfl h2
            | atRegistry => exact absurd rfl h3
          have hda := congrArg Prod.fst h
          have htxe := congrArg Prod.snd h
          simp only at hda htxe
          have htxe2 : subTx db s = tx := Option.some.inj htxe
          refine ⟨hfn, hpair, by rw [← htxe2]; rfl, ?_⟩
          rw [← hda, ← htxe2]

theorem subscribe_ok_inv (db : DB) (uid : String) (fid : Nat) (amount : Money)
    (fault : CommitFault) (db' : DB) (tx : TransactionDoc)
    (h : subscribe_to_fund db uid fid amount fault = (db', .ok tx)) :
    subscribeValidate db uid fid amount = .ok ⟨uid, fid, amount, balanceOf db uid⟩ ∧
    subscribeCommit db ⟨uid, fid, amount, balanceOf db uid⟩ fault = (db', some tx) := by
  unfold subscribe_to_fund at h
  split at h
  · exact absurd (congrArg Prod.snd h) (by simp)
  next s hs =>
    split at h
    next db₂ hc =>
      exact absurd (congrArg Prod.snd h) (by simp)
    next db₂ tx₂ hc =>
      have h1 := congrArg Prod.fst h
      have h2 := congrArg Prod.snd h
      simp only at h1 h2
      have h3 : tx₂ = tx := Except.ok.inj h2
      have hv := subscribeValidate_ok db uid fid amount s hs
      rw [hv.1] at hs hc
      rw [h1, h3] at hc
      exact ⟨hs, hc⟩

theorem cancelCommit_ok (db : DB) (uid : String) (fid : Nat)
    (sub : SubscriptionDoc) (user : UserDoc) (fault : CommitFault)
    (db' : DB) (tx : TransactionDoc)
    (h : cancelCommit db uid fid sub user fault = (db', some tx)) :
    fault = .none ∧
    tx = ⟨db.next_transaction_id, uid, fid, .cancellation, sub.amount,
          user.balance, user.balance + sub.amount⟩ ∧
    db' = { db with
            users := setBalance db.users uid (user.balance + sub.amount)
            user_subscriptions :=
              db.user_subscriptions.eraseP (isActiveSubFor uid fid)
            transactions := db.transactions ++ [tx]
            next_transaction_id := db.next_transaction_id + 1 } := by
  unfold cancelCommit at h
  split at h
  · exact absurd (congrArg Prod.snd h) (by simp)
  next h1 =>
    split at h
    · exact absurd (congrArg Prod.snd h) (by simp)
    next h2 =>
      split at h
      · exact absurd (congrArg Prod.snd h) (by simp)
      next h3 =>
        have hfn : fault = CommitFault.none := by
          cases fault with
          | none => rfl
          | atLedger => exact absurd rfl h1
          | atBalance => exact absurd rfl h2
          | atRegistry => exact absurd rfl h3
        have hda := congrArg Prod.fst h
        have htxe := congrArg Prod.snd h
        simp only at hda htxe
        have htxe2 : cancelTx db uid fid sub user = tx := Option.some.inj htxe
        refine ⟨hfn, by rw [← htxe2]; rfl, ?_⟩
        rw [← hda, ← htxe2]

theorem cancel_ok_inv (db : DB) (uid : String) (fid : Nat) (fault : CommitFault)
    (db' : DB) (tx : TransactionDoc)
    (h : cancel_subscription db uid fid fault = (db', .ok tx)) :
    ∃ sub user,
      findActiveSubscription db uid fid = some sub ∧
      findUser db uid = some user ∧
      tx = ⟨db.next_transaction_id, uid, fid, .cancellation, sub.amount,
            user.balance, user.balance + sub.amount⟩ ∧
      db' = { db with
              users := setBalance db.users uid (user.balance + sub.amount)
              user_subscriptions :=
                db.user_subscriptions.eraseP (isActiveSubFor uid fid)
              transactions := db.transactions ++ [tx]
              next_transaction_id := db.next_transaction_id + 1 } := by
  unfold cancel_subscription at h
  split at h
  · exact absurd (congrArg Prod.snd h) (by simp)
  next fund hf =>
    split at h
    · exact absurd (congrArg Prod.snd h) (by simp)
    next sub hsub =>
      split at h
      · exact absurd (congrArg Prod.snd h) (by simp)
      next user hu =>
        split at h
        next db₂ hc =>
          exact absurd (congrArg Prod.snd h) (by simp)
        next db₂ tx₂ hc =>
          have h1 := congrArg Prod.fst h
          have h2 := congrArg Prod.snd h
          simp only at h1 h2
          have h3 : tx₂ = tx := Except.ok.inj h2
          rw [h1, h3] at hc
          obtain ⟨-, htx, hdb⟩ := cancelCommit_ok db uid fid sub user fault db' tx hc
          exact ⟨sub, user, hsub, hu, htx, hdb⟩

/-- C1: for every successful `subscribe(accountId, fundId, amount)` the
account's balance drops by exactly `amount`, exactly one active
Subscription for the pair exists afterwards, and exactly one new
TransactionRecord of kind subscribe is appended whose `balance_before`
is the pre-operation balance and whose `balance_after` is that balance
minus `amount`. -/
theorem subscribe_postconditions (db : DB) (uid : String) (fid : Nat)
    (amount : Money) (fault : CommitFault) (db' : DB) (tx : TransactionDoc)
    (h : subscribe_to_fund db uid fid amount fault = (db', .ok tx)) :
    balanceOf db' uid = balanceOf db uid - amount ∧
    activeCount db' uid fid = 1 ∧
    db'.transactions = db.transactions ++ [tx] ∧
    tx.transaction_type = .subscription ∧
    tx.amount = amount ∧
    tx.balance_before = balanceOf db uid ∧
    tx.balance_after = balanceOf db uid - amount := by
  obtain ⟨hv, hc⟩ := subscribe_ok_inv db uid fid amount fault db' tx h
  obtain ⟨-, hpair, htx, hdb⟩ := subscribeCommit_ok _ _ _ _ _ hc
  obtain ⟨-, ⟨fund, hf, hmin⟩, ⟨user, hu, hub, hba⟩, hnodup⟩ :=
    subscribeValidate_ok _ _ _ _ _ hv
  have hbal : balanceOf db' uid = balanceOf db uid - amount := by
    rw [hdb]
    show ((lookupUser (setBalance db.users uid (balanceOf db uid - amount)) uid).map
      UserDoc.balance).getD 0 = _
    rw [lookupUser_setBalance]
    have : lookupUser db.users uid = some user := hu
    rw [this]
    rfl
  have hcnt : activeCount db' uid fid = 1 := by
    rw [hdb]
    show (db.user_subscriptions ++ [(⟨uid, fid, amount, true⟩ : SubscriptionDoc)]).countP
      (isActiveSubFor uid fid) = 1
    rw [List.countP_append]
    have h0 : db.user_subscriptions.countP (isActiveSubFor uid fid) = 0 :=
      List.countP_eq_zero.mpr (fun a ha hpa =>
        (List.find?_eq_none.mp hnodup a ha) hpa)
    have h1 : ([(⟨uid, fid, amount, true⟩ : SubscriptionDoc)]).countP
        (isActiveSubFor uid fid) = 1 := by
      simp [List.countP_cons, isActiveSubFor]
    rw [h0, h1]
  refine ⟨hbal, hcnt, ?_, ?_, ?_, ?_, ?_⟩
  · rw [hdb]
  · rw [htx]
  · rw [htx]
  · rw [htx]
  · rw [htx]

/-- Witness for C1: the spec's own scenario, balance 500000 and a
75000 subscription to a fund with minimum 75000. -/
theorem subscribe_postconditions_witness :
    balanceOf db1 "u1" = balanceOf db0 "u1" - 75000 ∧
    activeCount db1 "u1" 1 = 1 ∧
    db1.transactions = db0.transactions ++ [tx0] ∧
    tx0.transaction_type = .subscription ∧
    tx0.amount = 75000 ∧
    tx0.balance_before = balanceOf db0 "u1" ∧
    tx0.balance_after = balanceOf db0 "u1" - 75000 :=
  subscribe_postconditions db0 "u1" 1 75000 .none db1 tx0 (by decide)

/-- C2: for every successful `cancel(accountId, fundId)` the balance
rises by exactly the cancelled subscription's amount, no active
Subscription for the pair remains (given the unique index's invariant
that at most one document exists per pair), and one new cancel
TransactionRecord with matching before/after balances is appended. -/
theorem cancel_postconditions (db : DB) (uid : String) (fid : Nat)
    (fault : CommitFault) (db' : DB) (tx : TransactionDoc)
    (huniq : activeCount db uid fid ≤ 1)
    (h : cancel_subscription db uid fid fault = (db', .ok tx)) :
    balanceOf db' uid = balanceOf db uid + tx.amount ∧
    activeCount db' uid fid = 0 ∧
    db'.transactions = db.transactions ++ [tx] ∧
    tx.transaction_type = .cancellation ∧
    tx.balance_before = balanceOf db uid ∧
    tx.balance_after = balanceOf db uid + tx.amount := by
  obtain ⟨sub, user, hsub, hu, htx, hdb⟩ := cancel_ok_inv db uid fid fault db' tx h
  have hb : balanceOf db uid = user.balance := by
    unfold balanceOf findUser
    rw [show lookupUser db.users uid = some user from hu]
    rfl
  have hbal : balanceOf db' uid = user.balance + sub.amount := by
    rw [hdb]
    show ((lookupUser (setBalance db.users uid (user.balance + sub.amount)) uid).map
      UserDoc.balance).getD 0 = _
    rw [lookupUser_setBalance]
    rw [show lookupUser db.users uid = some user from hu]
    rfl
  have hcnt : activeCount db' uid fid = 0 := by
    rw [hdb]
    show (db.user_subscriptions.eraseP (isActiveSubFor uid fid)).countP
      (isActiveSubFor uid fid) = 0
    have := countP_eraseP_of_find? (isActiveSubFor uid fid) (isActiveSubFor uid fid)
      db.user_subscriptions sub hsub (fun _ hx => hx)
    unfold activeCount at huniq
    omega
  refine ⟨by rw [hbal, hb, htx], hcnt, by rw [hdb], by rw [htx], by rw [htx, hb],
    by rw [htx, hb, hbal.symm, hdb]⟩

/-- Witness for C2: cancelling the 75000 subscription restores the
balance to 500000. -/
theorem cancel_postconditions_witness :
    balanceOf db2c "u1" = balanceOf db1 "u1" + tx1c.amount ∧
    activeCount db2c "u1" 1 = 0 ∧
    db2c.transactions = db1.transactions ++ [tx1c] ∧
    tx1c.transaction_type = .cancellation ∧
    tx1c.balance_before = balanceOf db1 "u1" ∧
    tx1c.balance_after = balanceOf db1 "u1" + tx1c.amount :=
  cancel_postconditions db1 "u1" 1 .none db2c tx1c (by decide) (by decide)

theorem lookupUser_setBalance_some (l : List UserDoc) (uid : String) (v : Money)
    (user : UserDoc) (hu : lookupUser l uid = some user) :
    lookupUser (setBalance l uid v) uid = some { user with balance := v } := by
  rw [lookupUser_setBalance, hu]
  rfl

/-- C3 (code bug): conservation fails in the real code. Because the
session's writes are unbound (no `session=session` argument), a
persistence fault at the subscription insert of
`subscribe(u1, 1, 75000)` leaves the debit committed with no
subscription created, dropping balance + Σ active amounts from 500000
to 425000; dually, a fault at the `delete_one` of `cancel(u1, 1)`
leaves the credit committed with the subscription still active,
raising the quantity from 500000 to 575000. The claim quantifies over
failing operations, so the code violates it; the value is conserved
only by operations that fail validation or complete every write. -/
theorem conservation_violated_by_partial_commit :
    runOps "u1" db0 [Op.sub 1 75000 .atRegistry] = dbPartial ∧
    wealth db0 "u1" = 500000 ∧
    wealth dbPartial "u1" = 425000 ∧
    runOps "u1" db1 [Op.cancel 1 .atRegistry] = dbCPartial ∧
    wealth db1 "u1" = 500000 ∧
    wealth dbCPartial "u1" = 575000 := by decide

/-- C4 (code bug): atomicity fails in the real code. The writes at
main.py lines 305-327 and 427-443 never pass `session=session`, so
each auto-commits independently, outside the transaction the
surrounding block opens: a fault at the subscription insert leaves the
subscribe ledger row appended and the balance debited with no
Subscription created, and a fault at the `delete_one` leaves the
cancel ledger row appended and the balance credited with the
Subscription still active — exactly the half-applied operations the
claim requires to be impossible. -/
theorem atomicity_violated_by_unbound_writes :
    subscribe_to_fund db0 "u1" 1 75000 .atRegistry =
      (dbPartial, .error .persistenceFailure) ∧
    dbPartial.transactions = db0.transactions ++ [tx0] ∧
    balanceOf dbPartial "u1" = balanceOf db0 "u1" - 75000 ∧
    activeCount dbPartial "u1" 1 = 0 ∧
    cancel_subscription db1 "u1" 1 .atRegistry =
      (dbCPartial, .error .persistenceFailure) ∧
    balanceOf dbCPartial "u1" = balanceOf db1 "u1" + 75000 ∧
    activeCount dbCPartial "u1" 1 = 1 := by decide

/-- Counterexample to C5: the balance write is not compare-and-set.
Two subscribes of 80 each, both validated against the same balance 100,
both commit: the second commit succeeds although the account's balance
(20) no longer matches the 100 its validation read — there is no
ConcurrencyConflict failure (no such raise site exists in the code) —
and both subscriptions are accepted although 80 + 80 exceeds the
starting balance 100, so no maximal affordable prefix is enforced. -/
theorem balance_write_not_compare_and_set :
    subscribeValidate dbC5 "u1" 1 80 = .ok snapA ∧
    subscribeValidate dbC5 "u1" 2 80 = .ok snapB ∧
    subscribeCommit dbC5 snapA .none = (dbC5a, some txA) ∧
    balanceOf dbC5a "u1" ≠ snapB.balance_read ∧
    subscribeCommit dbC5a snapB .none = (dbC5b, some txB) ∧
    activeCount dbC5b "u1" 1 = 1 ∧
    activeCount dbC5b "u1" 2 = 1 ∧
    balanceOf dbC5 "u1" < 80 + 80 := by decide

/-- C5 amended: the balance mutation of subscribe is an unconditional
`$set` (the update filter names only the account id): the commit writes
`balance_read - amount` from its validation snapshot whatever the
account's balance is at commit time, so a stale snapshot silently
overwrites concurrent updates; the only guarantee is that each
individual written value is non-negative, because validation checked
`amount ≤ balance_read`. -/
theorem balance_write_unconditional (db₀ db : DB) (uid : String) (fid : Nat)
    (amount : Money) (s : SubSnapshot) (db' : DB) (tx : TransactionDoc)
    (hv : subscribeValidate db₀ uid fid amount = .ok s)
    (hc : subscribeCommit db s .none = (db', some tx)) :
    db'.users = setBalance db.users uid (s.balance_read - s.amount) ∧
    0 ≤ s.balance_read - s.amount ∧
    tx.balance_after = s.balance_read - s.amount := by
  obtain ⟨hs, -, ⟨user, hu, hub, hba⟩, -⟩ := subscribeValidate_ok _ _ _ _ _ hv
  obtain ⟨-, -, htx, hdb⟩ := subscribeCommit_ok _ _ _ _ _ hc
  subst hs
  refine ⟨by rw [hdb], ?_, by rw [htx]⟩
  show (0 : Money) ≤ balanceOf db₀ uid - amount
  rw [← hub]
  linarith

/-- Witness for the amended C5, at the stale commit of the
counterexample's interleaving. -/
theorem balance_write_unconditional_witness :
    dbC5b.users = setBalance dbC5a.users "u1" (snapB.balance_read - snapB.amount) ∧
    0 ≤ snapB.balance_read - snapB.amount ∧
    txB.balance_after = snapB.balance_read - snapB.amount :=
  balance_write_unconditional dbC5 dbC5a "u1" 2 80 snapB dbC5b txB
    (by decide) (by decide)

theorem findActive_none_of_pair_none (db : DB) (uid : String) (fid : Nat)
    (h : db.user_subscriptions.find? (isSubFor uid fid) = none) :
    findActiveSubscription db uid fid = none := by
  unfold findActiveSubscription
  exact List.find?_eq_none.mpr (fun x hx hpx =>
    (List.find?_eq_none.mp h x hx) (active_imp_pair uid fid x hpx))

theorem subscribeValidate_intro (db : DB) (uid : String) (fid : Nat)
    (amount : Money) (fund : Fund) (user : UserDoc)
    (hf : findFundActive db fid = some fund)
    (hmin : fund.minimum_amount ≤ amount)
    (hu : findUser db uid = some user)
    (hb : amount ≤ user.balance)
    (hnone : findActiveSubscription db uid fid = none) :
    subscribeValidate db uid fid amount = .ok ⟨uid, fid, amount, user.balance⟩ := by
  simp only [subscribeValidate, hf, hu, hnone]
  rw [if_neg (not_lt.mpr hmin), if_neg (not_lt.mpr hb)]
  simp

theorem subscribeCommit_intro (db : DB) (s : SubSnapshot)
    (hfind : db.user_subscriptions.find? (isSubFor s.uid s.fid) = none) :
    subscribeCommit db s .none =
      ({ db with
         users := setBalance db.users s.uid (s.balance_read - s.amount)
         user_subscriptions :=
           db.user_subscriptions ++ [⟨s.uid, s.fid, s.amount, true⟩]
         transactions := db.transactions ++
           [⟨db.next_transaction_id, s.uid, s.fid, .subscription, s.amount,
             s.balance_read, s.balance_read - s.amount⟩]
         next_transaction_id := db.next_transaction_id + 1 },
       some ⟨db.next_transaction_id, s.uid, s.fid, .subscription, s.amount,
             s.balance_read, s.balance_read - s.amount⟩) := by
  simp only [subscribeCommit, hfind]
  simp [subTx]

theorem subscribe_intro (db : DB) (uid : String) (fid : Nat) (amount : Money)
    (fund : Fund) (user : UserDoc)
    (hf : findFundActive db fid = some fund)
    (hmin : fund.minimum_amount ≤ amount)
    (hu : findUser db uid = some user)
    (hb : amount ≤ user.balance)
    (hpair : db.user_subscriptions.find? (isSubFor uid fid) = none) :
    subscribe_to_fund db uid fid amount .none =
      ({ db with
         users := setBalance db.users uid (user.balance - amount)
         user_subscriptions :=
           db.user_subscriptions ++ [⟨uid, fid, amount, true⟩]
         transactions := db.transactions ++
           [⟨db.next_transaction_id, uid, fid, .subscription, amount,
             user.balance, user.balance - amount⟩]
         next_transaction_id := db.next_transaction_id + 1 },
       .ok ⟨db.next_transaction_id, uid, fid, .subscription, amount,
            user.balance, user.balance - amount⟩) := by
  have hnone := findActive_none_of_pair_none db uid fid hpair
  simp only [subscribe_to_fund,
    subscribeValidate_intro db uid fid amount fund user hf hmin hu hb hnone,
    subscribeCommit_intro db ⟨uid, fid, amount, user.balance⟩ hpair]

/-- C6: boundary of the minimum-amount validation. With an active
fund, a user whose balance covers the minimum and no existing
subscription document for the pair, subscribing exactly the fund's
`minimum_amount` succeeds, while `minimum_amount - 1` fails with the
below-minimum error. -/
theorem minimum_boundary (db : DB) (uid : String) (fid : Nat) (fund : Fund)
    (user : UserDoc)
    (hf : findFundActive db fid = some fund)
    (hu : findUser db uid = some user)
    (hb : fund.minimum_amount ≤ user.balance)
    (hpair : db.user_subscriptions.find? (isSubFor uid fid) = none) :
    succeeds (subscribe_to_fund db uid fid fund.minimum_amount .none) = true ∧
    subscribe_to_fund db uid fid (fund.minimum_amount - 1) .none =
      (db, .error .belowMinimumInvestment) := by
  constructor
  · rw [succeeds, subscribe_intro db uid fid fund.minimum_amount fund user hf le_rfl hu hb hpair]
  · have hval : subscribeValidate db uid fid (fund.minimum_amount - 1) =
        .error .belowMinimumInvestment := by
      simp only [subscribeValidate, hf]
      rw [if_pos (by linarith : fund.minimum_amount - 1 < fund.minimum_amount)]
    simp only [subscribe_to_fund, hval]

/-- Witness for C6 at minimum 75000 and balance 500000. -/
theorem minimum_boundary_witness :
    succeeds (subscribe_to_fund db0 "u1" 1 fundFPV.minimum_amount .none) = true ∧
    subscribe_to_fund db0 "u1" 1 (fundFPV.minimum_amount - 1) .none =
      (db0, .error .belowMinimumInvestment) :=
  minimum_boundary db0 "u1" 1 fundFPV ⟨"u1", 500000⟩
    (by decide) (by decide) (by decide) (by decide)

/-- Counterexample to C7: a user holding an active subscription to
fund 3 with balance 50 subscribes 80. Both the duplicate condition and
the insufficient-balance condition hold, and the code reports
`insufficientFunds`, not `duplicateSubscription`: the balance check at
main.py line 270 runs before the duplicate check at line 277. -/
theorem duplicate_with_insufficient_gives_insufficient :
    (findActiveSubscription dbC7 "u1" 3).isSome = true ∧
    balanceOf dbC7 "u1" < 80 ∧
    subscribe_to_fund dbC7 "u1" 3 80 .none = (dbC7, .error .insufficientFunds) ∧
    (subscribe_to_fund dbC7 "u1" 3 80 .none).2 ≠ .error .duplicateSubscription := by
  decide

theorem subscribeValidate_insufficient (db : DB) (uid : String) (fid : Nat)
    (amount : Money) (fund : Fund) (user : UserDoc)
    (hf : findFundActive db fid = some fund)
    (hmin : fund.minimum_amount ≤ amount)
    (hu : findUser db uid = some user)
    (hb : user.balance < amount) :
    subscribeValidate db uid fid amount = .error .insufficientFunds := by
  simp only [subscribeValidate, hf, hu]
  rw [if_neg (not_lt.mpr hmin), if_pos hb]

theorem subscribeValidate_duplicate (db : DB) (uid : String) (fid : Nat)
    (amount : Money) (fund : Fund) (user : UserDoc) (sub : SubscriptionDoc)
    (hf : findFundActive db fid = some fund)
    (hmin : fund.minimum_amount ≤ amount)
    (hu : findUser db uid = some user)
    (hb : amount ≤ user.balance)
    (hdup : findActiveSubscription db uid fid = some sub) :
    subscribeValidate db uid fid amount = .error .duplicateSubscription := by
  simp only [subscribeValidate, hf, hu, hdup]
  rw [if_neg (not_lt.mpr hmin), if_neg (not_lt.mpr hb)]
  simp

theorem subscribe_error_of_validate (db : DB) (uid : String) (fid : Nat)
    (amount : Money) (fault : CommitFault) (e : ApiError)
    (h : subscribeValidate db uid fid amount = .error e) :
    subscribe_to_fund db uid fid amount fault = (db, .error e) := by
  simp only [subscribe_to_fund, h]

/-- C7 amended: the balance check precedes the duplicate-subscription
check. Whenever the fund validations pass and the balance is
insufficient, subscribe reports `insufficientFunds`, regardless of any
existing active subscription. -/
theorem balance_checked_before_duplicate (db : DB) (uid : String) (fid : Nat)
    (amount : Money) (fault : CommitFault) (fund : Fund) (user : UserDoc)
    (hf : findFundActive db fid = some fund)
    (hmin : fund.minimum_amount ≤ amount)
    (hu : findUser db uid = some user)
    (hb : user.balance < amount) :
    subscribe_to_fund db uid fid amount fault = (db, .error .insufficientFunds) :=
  subscribe_error_of_validate db uid fid amount fault .insufficientFunds
    (subscribeValidate_insufficient db uid fid amount fund user hf hmin hu hb)

/-- Witness for the amended C7 at the counterexample state. -/
theorem balance_checked_before_duplicate_witness :
    subscribe_to_fund dbC7 "u1" 3 80 .none = (dbC7, .error .insufficientFunds) :=
  balance_checked_before_duplicate dbC7 "u1" 3 80 .none ⟨3, "C", 10, true⟩
    ⟨"u1", 50⟩ (by decide) (by decide) (by decide) (by decide)

/-- Counterexample to C8: resubmitting the identical subscribe
request after a successful commit does not return the original
TransactionRecord — it fails with `duplicateSubscription`. The request
model (`SubscriptionRequest` in shared/models.py) carries only
`fund_id` and `amount`: there is no caller-supplied idempotency key at
all. -/
theorem resubmit_counterexample :
    subscribe_to_fund db0 "u1" 1 75000 .none = (db1, .ok tx0) ∧
    subscribe_to_fund db1 "u1" 1 75000 .none = (db1, .error .duplicateSubscription) ∧
    succeeds (subscribe_to_fund db1 "u1" 1 75000 .none) = false := by
  decide

/-- C8 amended: a resubmitted identical subscribe after a successful
commit is rejected — with `insufficientFunds` or
`duplicateSubscription`, depending on whether the debited balance still
covers the amount — and performs no second debit: the state after the
retry is exactly the state the first call left. -/
theorem resubmitted_subscribe_rejected (db : DB) (uid : String) (fid : Nat)
    (amount : Money) (fault retryFault : CommitFault) (db' : DB)
    (tx : TransactionDoc)
    (h : subscribe_to_fund db uid fid amount fault = (db', .ok tx)) :
    (subscribe_to_fund db' uid fid amount retryFault =
       (db', .error .insufficientFunds) ∨
     subscribe_to_fund db' uid fid amount retryFault =
       (db', .error .duplicateSubscription)) ∧
    subscribeState db' uid fid amount retryFault = db' := by
  obtain ⟨hv, hc⟩ := subscribe_ok_inv db uid fid amount fault db' tx h
  obtain ⟨-, hpair, htx, hdb⟩ := subscribeCommit_ok _ _ _ _ _ hc
  obtain ⟨-, ⟨fund, hf, hmin⟩, ⟨user, hu, hub, hba⟩, hnodup⟩ :=
    subscribeValidate_ok _ _ _ _ _ hv
  have hf' : findFundActive db' fid = some fund := by
    unfold findFundActive
    rw [hdb]
    exact hf
  have hu' : findUser db' uid =
      some { user with balance := balanceOf db uid - amount } := by
    show lookupUser db'.users uid = _
    rw [hdb]
    exact lookupUser_setBalance_some db.users uid _ user hu
  have hsub' : findActiveSubscription db' uid fid =
      some ⟨uid, fid, amount, true⟩ := by
    unfold findActiveSubscription
    rw [hdb]
    show (db.user_subscriptions ++
      [(⟨uid, fid, amount, true⟩ : SubscriptionDoc)]).find?
        (isActiveSubFor uid fid) = _
    rw [List.find?_append,
      show db.user_subscriptions.find? (isActiveSubFor uid fid) = none from hnodup]
    simp [isActiveSubFor]
  have hrej : subscribe_to_fund db' uid fid amount retryFault =
      (db', .error .insufficientFunds) ∨
      subscribe_to_fund db' uid fid amount retryFault =
      (db', .error .duplicateSubscription) := by
    by_cases hlt :
        ({ user with balance := balanceOf db uid - amount } : UserDoc).balance < amount
    · exact Or.inl (subscribe_error_of_validate db' uid fid amount retryFault _
        (subscribeValidate_insufficient db' uid fid amount fund _ hf' hmin hu' hlt))
    · exact Or.inr (subscribe_error_of_validate db' uid fid amount retryFault _
        (subscribeValidate_duplicate db' uid fid amount fund _ _ hf' hmin hu'
          (not_lt.mp hlt) hsub'))
  refine ⟨hrej, ?_⟩
  show (subscribe_to_fund db' uid fid amount retryFault).1 = db'
  cases hrej with
  | inl he => rw [he]
  | inr he => rw [he]

/-- Witness for the amended C8: retrying the 75000 subscription. -/
theorem resubmitted_subscribe_rejected_witness :
    (subscribe_to_fund db1 "u1" 1 75000 .none = (db1, .error .insufficientFunds) ∨
     subscribe_to_fund db1 "u1" 1 75000 .none = (db1, .error .duplicateSubscription)) ∧
    subscribeState db1 "u1" 1 75000 .none = db1 :=
  resubmitted_subscribe_rejected db0 "u1" 1 75000 .none .none db1 tx0 (by decide)

/-- Counterexample to C9: fund 4 exists in the catalog with
`is_active = false`, yet subscribe fails with the same `fundNotFound`
error (the 404 of main.py line 235) produced when the fund is absent
from the catalog: the lookup filter is
`{"fund_id": fid, "is_active": True}`, and no distinct FundInactive
raise site exists. -/
theorem inactive_fund_counterexample :
    findFund dbC9 4 = some ⟨4, "D", 10, false⟩ ∧
    subscribe_to_fund dbC9 "u1" 4 100 .none = (dbC9, .error .fundNotFound) ∧
    subscribe_to_fund dbC9e "u1" 4 100 .none = (dbC9e, .error .fundNotFound) ∧
    (subscribe_to_fund dbC9 "u1" 4 100 .none).2 =
      (subscribe_to_fund dbC9e "u1" 4 100 .none).2 := by
  decide

/-- C9 amended: whenever no active fund document matches the id —
whether the fund is absent from the catalog or present with
`is_active = false` — subscribe fails with the single `fundNotFound`
error. -/
theorem inactive_fund_not_found (db : DB) (uid : String) (fid : Nat)
    (amount : Money) (fault : CommitFault)
    (h : findFundActive db fid = none) :
    subscribe_to_fund db uid fid amount fault = (db, .error .fundNotFound) := by
  have hval : subscribeValidate db uid fid amount = .error .fundNotFound := by
    simp only [subscribeValidate, h]
  simp only [subscribe_to_fund, hval]

/-- Witness for the amended C9: the inactive fund 4. -/
theorem inactive_fund_not_found_witness :
    subscribe_to_fund dbC9 "u1" 4 100 .none = (dbC9, .error .fundNotFound) :=
  inactive_fund_not_found dbC9 "u1" 4 100 .none (by decide)

theorem subscribeValidate_error_cases (db : DB) (uid : String) (fid : Nat)
    (amount : Money) (e : ApiError)
    (h : subscribeValidate db uid fid amount = .error e) :
    e = .fundNotFound ∨ e = .belowMinimumInvestment ∨ e = .userNotFound ∨
    e = .insufficientFunds ∨ e = .duplicateSubscription := by
  unfold subscribeValidate at h
  split at h
  · exact Or.inl (Except.error.inj h).symm
  · split at h
    · exact Or.inr (Or.inl (Except.error.inj h).symm)
    · split at h
      · exact Or.inr (Or.inr (Or.inl (Except.error.inj h).symm))
      · split at h
        · exact Or.inr (Or.inr (Or.inr (Or.inl (Except.error.inj h).symm)))
        · split at h
          · exact Or.inr (Or.inr (Or.inr (Or.inr (Except.error.inj h).symm)))
          · exact absurd h (by simp)

/-- C10: a successful cancel physically deletes the subscription
document (`delete_one`), so no document for the pair remains in the
registry at all (given the unique index's at-most-one-document
invariant), `getActive` returns none, and a later subscribe for the
same pair cannot hit the unique index on (user_id, fund_id): with a
fault-free commit phase it never fails with `persistenceFailure`. -/
theorem cancel_deletes_row (db : DB) (uid : String) (fid : Nat)
    (fault : CommitFault) (db' : DB) (tx : TransactionDoc) (amount : Money)
    (huniq : pairCount db uid fid ≤ 1)
    (h : cancel_subscription db uid fid fault = (db', .ok tx)) :
    pairCount db' uid fid = 0 ∧
    findActiveSubscription db' uid fid = none ∧
    (subscribe_to_fund db' uid fid amount .none).2 ≠ .error .persistenceFailure := by
  obtain ⟨sub, user, hsub, hu, htx, hdb⟩ := cancel_ok_inv db uid fid fault db' tx h
  have hcnt : pairCount db' uid fid = 0 := by
    rw [hdb]
    show (db.user_subscriptions.eraseP (isActiveSubFor uid fid)).countP
      (isSubFor uid fid) = 0
    have := countP_eraseP_of_find? (isActiveSubFor uid fid) (isSubFor uid fid)
      db.user_subscriptions sub hsub (active_imp_pair uid fid)
    unfold pairCount at huniq
    omega
  have hpairnone : db'.user_subscriptions.find? (isSubFor uid fid) = none := by
    unfold pairCount at hcnt
    exact List.find?_eq_none.mpr (fun x hx hpx =>
      (List.countP_eq_zero.mp hcnt x hx) hpx)
  refine ⟨hcnt, findActive_none_of_pair_none db' uid fid hpairnone, ?_⟩
  intro hcontra
  cases hval : subscribeValidate db' uid fid amount with
  | error e =>
    have hsub2 := subscribe_error_of_validate db' uid fid amount .none e hval
    rw [hsub2] at hcontra
    have he : e = ApiError.persistenceFailure := Except.error.inj hcontra
    subst he
    rcases subscribeValidate_error_cases db' uid fid amount _ hval with
      h1 | h1 | h1 | h1 | h1 <;> exact absurd h1 (by simp)
  | ok s =>
    have hs := (subscribeValidate_ok db' uid fid amount s hval).1
    have hfind : db'.user_subscriptions.find? (isSubFor s.uid s.fid) = none := by
      rw [hs]
      exact hpairnone
    have hcommit := subscribeCommit_intro db' s hfind
    simp only [subscribe_to_fund, hval, hcommit] at hcontra
    exact absurd hcontra (by simp)

/-- Witness for C10: after cancelling, the pair's row is gone and a
fresh 75000 subscription does not conflict with the index. -/
theorem cancel_deletes_row_witness :
    pairCount db2c "u1" 1 = 0 ∧
    findActiveSubscription db2c "u1" 1 = none ∧
    (subscribe_to_fund db2c "u1" 1 75000 .none).2 ≠ .error .persistenceFailure :=
  cancel_deletes_row db1 "u1" 1 .none db2c tx1c 75000 (by decide) (by decide)

end BTG
